import Mathlib

/-!
Shallow embedding of the CleanMusicLocator repository
(`src/main.py`, `src/Song_Metadata.py`, `src/ISRC_Metadata.py`,
`src/ffprobePython/ffprobe3.py`, `src/ffprobePython/exceptions.py`).

Modelling conventions, fixed once for the whole file:

* Python `dict`s of parsed JSON are association lists `List (String × JVal)`
  looked up by first match (Python dict keys are unique, so first match is
  the only match).
* CPython `float` arithmetic is modelled with `ℚ`.  All numeric values that
  the probed code ever formats are small decimal literals, for which the
  rational and double computations agree at the printed precision.
* `"%3.1f"` / `"%.1f"` formatting is modelled by `fmtOneDec`: multiply by 10,
  round half-up to an integer, print with one digit after the point.  (C
  `printf` rounds the underlying double to nearest; no tie case is exercised
  by any theorem below.)
* A fallible Python computation is an `Except Err _` value; a bare
  `try/except` that returns a default is a `match` sending `.error _`
  to the default.
-/

/-- A parsed JSON value, as produced by `json.loads` in `ffprobe3.probe`. -/
inductive JVal where
  | jnull : JVal
  | jbool : Bool → JVal
  | jint : Int → JVal
  | jfloat : ℚ → JVal
  | jstr : String → JVal
  | jarr : List JVal → JVal
  | jobj : List (String × JVal) → JVal

/-- A parsed JSON dictionary (a Python `dict` with string keys). -/
abbrev JDict := List (String × JVal)

/-- One shared error type for every exception the embedded code can raise:
the `ffprobe3.exceptions` classes plus the builtin Python exceptions that the
source can let escape (`KeyError`, `TypeError`). -/
inductive Err where
  | keyError : Err
  | typeError : Err
  | ffInvalidArgument (argName problem : String) : Err
  | ffOverrideFile : Err
  | ffMediaFile : Err
  | ffJsonParse : Err
  | ffSubprocess (exitStatus : Int) (errs : String) : Err
  | ffStreamSubclass (cls : String) (actual : Option JVal) (required : String) : Err

/-- Python `dict.__getitem__` by string key (`parsed_json[key]`): first match. -/
def jlookup (j : JDict) (k : String) : Option JVal :=
  (j.find? (fun p => p.1 == k)).map (fun p => p.2)

/-- Digit-list to number, most significant digit first (`int` on a digit string). -/
def digitsToNat (l : List Char) : Nat :=
  l.foldl (fun a c => 10 * a + (c.toNat - 48)) 0

/-- Nonempty all-digit character list parsed as a natural number; `none` otherwise. -/
def parseDigitsNat (l : List Char) : Option Nat :=
  if !l.isEmpty && l.all Char.isDigit then some (digitsToNat l) else none

/-- An optionally `-`-signed nonempty digit string parsed as an integer
(the `int(...)` conversion applied to a string matched by `-?[0-9]+`). -/
def parseSignedInt (l : List Char) : Option Int :=
  match l with
  | '-' :: rest => (parseDigitsNat rest).map (fun n => -(n : Int))
  | _ => (parseDigitsNat l).map (fun n => (n : Int))

/-- Split a character list at the first occurrence of `c`; `none` if absent. -/
def chopAt (c : Char) : List Char → Option (List Char × List Char)
  | [] => none
  | x :: rest =>
      if x = c then some ([], rest)
      else (chopAt c rest).map (fun p => (x :: p.1, p.2))

/-- Model of CPython `float(s)` on plain decimal notation: optional sign, then
digits with at most one decimal point and at least one digit in total.
(Exponents, `inf`/`nan`, embedded underscores and surrounding whitespace are
accepted by CPython but are never produced by `ffprobe`, so they are outside
this model.) -/
def parseUnsignedDec (l : List Char) : Option ℚ :=
  match chopAt '.' l with
  | none => (parseDigitsNat l).map (fun n => (n : ℚ))
  | some (a, b) =>
      if !(a ++ b).isEmpty && a.all Char.isDigit && b.all Char.isDigit then
        some ((digitsToNat a : ℚ) + (digitsToNat b : ℚ) / (10 : ℚ) ^ b.length)
      else none

/-- Model of CPython `float(s)` including an optional leading sign. -/
def parseSignedDec (l : List Char) : Option ℚ :=
  match l with
  | '-' :: rest => (parseUnsignedDec rest).map (fun q => -q)
  | '+' :: rest => parseUnsignedDec rest
  | _ => parseUnsignedDec l

/-- Model of CPython `float(x)` on a parsed JSON value: numeric strings parse,
numbers and booleans convert, everything else raises (→ `none`). -/
def pyFloat : JVal → Option ℚ
  | .jstr s => parseSignedDec s.data
  | .jint n => some (n : ℚ)
  | .jfloat q => some q
  | .jbool b => some (if b then 1 else 0)
  | _ => none

/-- Model of CPython `int(x)` on a parsed JSON value: integer strings parse,
floats truncate toward zero, booleans convert, everything else raises. -/
def pyInt : JVal → Option Int
  | .jstr s => parseSignedInt s.data
  | .jint n => some n
  | .jfloat q => some (if 0 ≤ q then ⌊q⌋ else ⌈q⌉)
  | .jbool b => some (if b then 1 else 0)
  | _ => none

/-- `ParsedJson.get`: value for `key` if present, else the default. -/
def pjGet (j : JDict) (key : String) (default : Option JVal) : Option JVal :=
  match jlookup j key with
  | some v => some v
  | none => default

/-- `ParsedJson.get_as_float`: `float(self.parsed_json[key])` with every
failure (missing key, inconvertible value) caught and sent to `default`. -/
def get_as_float (j : JDict) (key : String) (default : Option ℚ) : Option ℚ :=
  match jlookup j key with
  | none => default
  | some v =>
      match pyFloat v with
      | none => default
      | some q => some q

/-- `ParsedJson.get_as_int`: `int(self.parsed_json[key])` with every failure
caught and sent to `default`. -/
def get_as_int (j : JDict) (key : String) (default : Option Int) : Option Int :=
  match jlookup j key with
  | none => default
  | some v =>
      match pyInt v with
      | none => default
      | some n => some n

/-- Digits of `m/10 . m%10` — the body shared by the sign cases of `fmtOneDec`. -/
def fmtNat1 (m : Nat) : String :=
  toString (m / 10) ++ "." ++ toString (m % 10)

/-- Model of C `printf` `"%3.1f"` / `"%.1f"` on a rational: one digit after the
decimal point, rounding half-up.  (The minimum field width 3 never forces
padding: every one-decimal rendering already has at least three characters.) -/
def fmtOneDec (q : ℚ) : String :=
  let n : Int := ⌊q * 10 + 1 / 2⌋
  if n < 0 then "-" ++ fmtNat1 n.natAbs else fmtNat1 n.toNat

/-- The divisor chosen by `get_datasize_as_human` (`1000.0` or `1024.0`). -/
def sizeDivisor (use_base_10 : Bool) : ℚ :=
  if use_base_10 then 1000 else 1024

/-- The unit-prefix list scanned by `get_datasize_as_human`. -/
def humanUnits : List String := ["", "k", "M", "G", "T", "P", "E", "Z"]

/-- One formatted return value of `get_datasize_as_human`: `"%3.1f %s%s"`, with
the `'i'` infix exactly when base-2 is selected and the unit prefix is
nonempty (this also covers the post-loop `'Y'`/`'Yi'` return). -/
def datasizeEntry (use_base_10 : Bool) (suffix : String) (num : ℚ) (unit : String) : String :=
  if use_base_10 = false ∧ unit ≠ "" then fmtOneDec num ++ " " ++ unit ++ "i" ++ suffix
  else fmtOneDec num ++ " " ++ unit ++ suffix

/-- The `for unit in [...]` scaling loop of `get_datasize_as_human`: return at
the first unit where `abs(num) < divisor`, else divide and continue; after the
list is exhausted, return with unit `"Y"`. -/
def datasizeLoop (divisor : ℚ) (use_base_10 : Bool) (suffix : String) :
    ℚ → List String → String
  | num, [] => datasizeEntry use_base_10 suffix num "Y"
  | num, u :: us =>
      if |num| < divisor then datasizeEntry use_base_10 suffix num u
      else datasizeLoop divisor use_base_10 suffix (num / divisor) us

/-- `ParsedJson.get_datasize_as_human`: look up `key`, convert to float, scale
through the metric (or binary) prefixes; any failure yields `default`. -/
def get_datasize_as_human (j : JDict) (key : String) (default : Option String)
    (suffix : String) (use_base_10 : Bool) : Option String :=
  match jlookup j key with
  | none => default
  | some v =>
      match pyFloat v with
      | none => default
      | some num =>
          some (datasizeLoop (sizeDivisor use_base_10) use_base_10 suffix num humanUnits)

/-- Two-digit zero-padded rendering of a natural number (`"%02d"`). -/
def pad2 (k : Nat) : String :=
  if k < 10 then "0" ++ toString k else toString k

/-- `"%02d"` on a possibly negative integer. -/
def pad2i (i : Int) : String :=
  if i < 0 then "-" ++ toString i.natAbs else pad2 i.toNat

/-- Model of `"%05.2f"` on a rational: two digits after the point, zero-padded
to width five, rounding half-up. -/
def fmtSec (q : ℚ) : String :=
  let n : Int := ⌊q * 100 + 1 / 2⌋
  if n < 0 then "-" ++ pad2 (n.natAbs / 100) ++ "." ++ pad2 (n.natAbs % 100)
  else pad2 (n.toNat / 100) ++ "." ++ pad2 (n.toNat % 100)

/-- The `"%02d:%02d:%05.2f"` rendering of `get_duration_as_human` applied to a
successfully converted seconds value, including the float floor-divisions. -/
def durationRender (secs : ℚ) : String :=
  let m1 : Int := ⌊secs / 60⌋
  let s2 : ℚ := secs - (m1 : ℚ) * 60
  let h : Int := ⌊(m1 : ℚ) / 60⌋
  let m2 : Int := m1 - h * 60
  pad2i h ++ ":" ++ pad2i m2 ++ ":" ++ fmtSec s2

/-- `ParsedJson.get_duration_as_human`: convert `parsed_json["duration"]` to a
float and render `HH:MM:SS.ss`; any failure yields `default`. -/
def get_duration_as_human (j : JDict) (default : Option String) : Option String :=
  match jlookup j "duration" with
  | none => default
  | some v =>
      match pyFloat v with
      | none => default
      | some secs => some (durationRender secs)

/-! ### Stream classes (`FFstream` and its subclasses, `ffprobe3.py`) -/

/-- A constructed stream object.  Each variant corresponds to one of the
Python classes `FFstream` (generic), `FFattachmentStream`, `FFaudioStream`,
`FFsubtitleStream`, `FFvideoStream`; each references the stream's parsed
JSON dictionary. -/
inductive FFstreamObj where
  | generic (parsed_json : JDict)
  | attachment (parsed_json : JDict)
  | audio (parsed_json : JDict)
  | subtitle (parsed_json : JDict)
  | video (parsed_json : JDict)

/-- `FFattachmentStream.__init__`: raises `FFprobeStreamSubclassError` unless
`codec_type == "attachment"` (comparison of the raw JSON value of the
`codec_type` key against the string; an absent key compares unequal). -/
def mkFFattachmentStream (d : JDict) : Except Err FFstreamObj :=
  match jlookup d "codec_type" with
  | some (.jstr "attachment") => .ok (.attachment d)
  | ct => .error (.ffStreamSubclass "FFattachmentStream" ct "attachment")

/-- `FFaudioStream.__init__`: raises `FFprobeStreamSubclassError` unless
`codec_type == "audio"`. -/
def mkFFaudioStream (d : JDict) : Except Err FFstreamObj :=
  match jlookup d "codec_type" with
  | some (.jstr "audio") => .ok (.audio d)
  | ct => .error (.ffStreamSubclass "FFaudioStream" ct "audio")

/-- `FFsubtitleStream.__init__`: raises `FFprobeStreamSubclassError` unless
`codec_type == "subtitle"`. -/
def mkFFsubtitleStream (d : JDict) : Except Err FFstreamObj :=
  match jlookup d "codec_type" with
  | some (.jstr "subtitle") => .ok (.subtitle d)
  | ct => .error (.ffStreamSubclass "FFsubtitleStream" ct "subtitle")

/-- `FFvideoStream.__init__`: raises `FFprobeStreamSubclassError` unless
`codec_type == "video"`. -/
def mkFFvideoStream (d : JDict) : Except Err FFstreamObj :=
  match jlookup d "codec_type" with
  | some (.jstr "video") => .ok (.video d)
  | ct => .error (.ffStreamSubclass "FFvideoStream" ct "video")

/-- Whether a JSON value may be used as a CPython `dict` key (only lists and
dicts are unhashable); `_KNOWN_FFSTREAM_SUBCLASSES.get(codec_type)` raises
`TypeError` on an unhashable key. -/
def jhashable : JVal → Bool
  | .jarr _ => false
  | .jobj _ => false
  | _ => true

/-- `_construct_ffstream_subclass`: look up `codec_type` (default `None`);
a recognized tag selects the matching subclass constructor, any other
hashable value (or an absent key) falls back to plain `FFstream`. -/
def constructFFstreamSubclass (d : JDict) : Except Err FFstreamObj :=
  match jlookup d "codec_type" with
  | none => .ok (.generic d)
  | some ct =>
      if jhashable ct then
        match ct with
        | .jstr "attachment" => mkFFattachmentStream d
        | .jstr "audio" => mkFFaudioStream d
        | .jstr "subtitle" => mkFFsubtitleStream d
        | .jstr "video" => mkFFvideoStream d
        | _ => .ok (.generic d)
      else .error .typeError

/-! ### `FFvideoStream` derived-value accessors -/

/-- The attributes of a constructed `FFvideoStream` that its getter methods
read: the stream's parsed JSON plus the `width`/`height`/`side_data_list`
attributes assigned in `__init__`. -/
structure FFvideoObj where
  parsed_json : JDict
  width : Option Int
  height : Option Int
  side_data_list : Option JVal

/-- The attribute assignments of `FFvideoStream.__init__` that the getter
methods depend on. -/
def FFvideoOfDict (d : JDict) : FFvideoObj :=
  { parsed_json := d
    width := get_as_int d "width" none
    height := get_as_int d "height" none
    side_data_list := pjGet d "side_data_list" none }

/-- Pattern match of `re.match("^(-?[0-9]+)/(-?[0-9]+)$", s)` followed by
`int` conversion of the two groups: split at the single `/` (a second `/`
makes the second group fail), each side an optionally-negated nonempty digit
string.  The two integers are returned exactly as written (no gcd
reduction). -/
def parseFrac (l : List Char) : Option (Int × Int) :=
  match chopAt '/' l with
  | none => none
  | some (x, y) =>
      match parseSignedInt x, parseSignedInt y with
      | some n, some den => some (n, den)
      | _, _ => none

/-- `FFvideoStream.get_frame_rate_as_ratio`: look up `key`, pattern-match the
string as `int/int`, return the pair; every failure (missing key, non-string
value, malformed string) yields `default`. -/
def get_frame_rate_as_ratio (v : FFvideoObj) (key : String)
    (default : Option (Int × Int)) : Option (Int × Int) :=
  match jlookup v.parsed_json key with
  | some (.jstr s) =>
      match parseFrac s.data with
      | some p => some p
      | none => default
  | _ => default

/-- `FFvideoStream.get_frame_rate_as_float`: ratio first (with its own
default `None`), then reject a nonpositive numerator or denominator, else
divide as floats. -/
def get_frame_rate_as_float (v : FFvideoObj) (key : String)
    (default : Option ℚ) : Option ℚ :=
  match get_frame_rate_as_ratio v key none with
  | none => default
  | some (n, den) =>
      if n ≤ 0 ∨ den ≤ 0 then default else some ((n : ℚ) / (den : ℚ))

/-- The list comprehension `[d["rotation"] for d in side_data_list]`: every
element must be a dictionary containing a `"rotation"` key, else the
comprehension raises. -/
def rotationsOf (items : List JVal) : Option (List JVal) :=
  items.mapM (fun it =>
    match it with
    | .jobj d => jlookup d "rotation"
    | _ => none)

/-- `FFvideoStream.get_frame_rotation`: first element of the rotation list;
any failure (attribute `None`, non-list value, element without a rotation,
empty list) yields `default`. -/
def get_frame_rotation (v : FFvideoObj) (default : Option JVal) : Option JVal :=
  match v.side_data_list with
  | some (.jarr items) =>
      match rotationsOf items with
      | some (r :: _) => some r
      | _ => default
  | _ => default

/-- The `rotation % 360 in (90, 270)` test of `get_frame_shape`, applied to
the raw JSON rotation value.  Integers use integer modulo (Python `%` and
Lean `Int.emod` agree: the result takes the divisor's sign); floats use
Python's floored float modulo `q - 360*⌊q/360⌋` and the tuple-membership
test compares numerically, so `90.0` swaps; booleans are Python ints 0/1,
never equal to 90 or 270; `None`, lists and dicts do not support `%` and
raise `TypeError` inside `get_frame_shape`'s `try` (→ `none` here).  (A
string rotation also raises `TypeError` unless it contains `%`-conversion
directives; `ffprobe` never emits string rotations, and the
string-formatting corner is outside this model.) -/
def rotationSwaps (r : Option JVal) : Option Bool :=
  match r with
  | some (.jint n) => some (n % 360 == 90 || n % 360 == 270)
  | some (.jfloat q) =>
      some (decide (q - 360 * ⌊q / 360⌋ = 90) || decide (q - 360 * ⌊q / 360⌋ = 270))
  | some (.jbool b) =>
      some (((if b then (1 : Int) else 0) % 360 == 90)
        || ((if b then (1 : Int) else 0) % 360 == 270))
  | _ => none

/-- `FFvideoStream.get_frame_shape`: `(width, height)` as ints, swapped when
the rotation is 90 or 270 (mod 360); any failure yields `default`. -/
def get_frame_shape (v : FFvideoObj) (default : Option (Int × Int)) :
    Option (Int × Int) :=
  match v.height, v.width with
  | some h, some w =>
      match rotationSwaps (get_frame_rotation v (some (.jint 0))) with
      | some true => some (h, w)
      | some false => some (w, h)
      | none => default
  | _, _ => default

/-! ### `probe` (`ffprobe3.py`) -/

/-- The Python value supplied for `communicate_timeout`. -/
inductive PyTimeout where
  | nonev : PyTimeout
  | intv (n : Int) : PyTimeout
  | floatv (q : ℚ) : PyTimeout
  | otherv : PyTimeout

/-- The property the spec calls "a positive number". -/
def isPositiveNumber : PyTimeout → Prop
  | .intv n => 0 < n
  | .floatv q => 0 < q
  | _ => False

/-- The `communicate_timeout` validation in `probe`: a non-`None` value must
be an `int` or `float` and must be positive; `None` is accepted unchecked. -/
def checkCommunicateTimeout : PyTimeout → Option Err
  | .nonev => none
  | .intv n =>
      if n ≤ 0 then
        some (.ffInvalidArgument "communicate_timeout" "Supplied timeout is non-None and non-positive")
      else none
  | .floatv q =>
      if q ≤ 0 then
        some (.ffInvalidArgument "communicate_timeout" "Supplied timeout is non-None and non-positive")
      else none
  | .otherv =>
      some (.ffInvalidArgument "communicate_timeout" "Supplied timeout is non-None and non-numeric")

/-- The caller-visible inputs to the validation phase of `probe` that runs
before `subprocess.Popen` is called. -/
structure ProbeArgs where
  ffprobeCmdOverride : Option Bool
  communicateTimeout : PyTimeout
  verifyLocalMediafile : Bool
  mediaLooksLikeUri : Bool
  mediaFileExists : Bool

/-- The validation phase of `probe`, in source order: override-file check,
timeout check, local-media-file check.  `none` means every check passed and
control reaches the `subprocess.Popen` call; `some e` means exception `e` is
raised before any process is spawned.  `ffprobeCmdOverride = some b` models a
non-`None` override path whose `os.path.isfile` test returns `b`. -/
def probeValidate (a : ProbeArgs) : Option Err :=
  match a.ffprobeCmdOverride with
  | some false => some .ffOverrideFile
  | _ =>
      match checkCommunicateTimeout a.communicateTimeout with
      | some e => some e
      | none =>
          if a.verifyLocalMediafile ∧ ¬a.mediaLooksLikeUri ∧ ¬a.mediaFileExists then
            some .ffMediaFile
          else none

/-- The output-classification phase of `probe`, in source order:
`json.loads(outs)` is attempted first (a parse failure raises
`FFprobeJsonParseError` whatever the exit status); only then is a non-zero
exit status turned into `FFprobeSubprocessError` carrying the exit code and
the captured stderr text.  `parsedOut = none` models stdout text that is not
parseable JSON. -/
def probeClassify (parsedOut : Option JVal) (exitStatus : Int) (errs : String) :
    Except Err JVal :=
  match parsedOut with
  | none => .error .ffJsonParse
  | some j =>
      if exitStatus ≠ 0 then .error (.ffSubprocess exitStatus errs)
      else .ok j

/-! ### `main.py`: records, normalizer, catalog client, orchestrator -/

/-- `Song_Metadata.SongMetadata` (ffprobe tag values are strings). -/
structure SongMetadata where
  Artist : String
  Title : String
  Year : String
  ISRC : String
  AlbumArtist : String
  FilePath : String
deriving DecidableEq

/-- `ISRC_Metadata.ISRCMetadata`: one catalog recording, every field a string
as in the dataclass. -/
structure ISRCMetadata where
  duration : String
  recordingVersion : String
  isValidIsrc : String
  recordingYear : String
  recordingArtistName : String
  isExplicit : String
  isrc : String
  isrcFailureCode : String
  recordingTitle : String
  id : String
deriving DecidableEq

/-- A stream as consumed by `GetTrackMetaData`: either an `FFaudioStream`
(the `isinstance` test) carrying the optional `tags` dictionary of its parsed
JSON (ffprobe tag dictionaries map strings to strings), or any other stream
object. -/
inductive MainStream where
  | audioStream (tags : Option (List (String × String))) : MainStream
  | otherStream : MainStream

/-- The `for s in metadata.streams` loop of `GetTrackMetaData` up to the first
`FFaudioStream`: `none` when no audio stream occurs, else that stream's
optional tag dictionary. -/
def firstAudioTags : List MainStream → Option (Option (List (String × String)))
  | [] => none
  | .audioStream t :: _ => some t
  | .otherStream :: rest => firstAudioTags rest

/-- `GetTrackMetaData`: `none` when the probe raised (`probeResult = none`),
when no audio stream is present, or when the first audio stream's parsed JSON
has no `tags` key; otherwise the flat record with per-tag defaults —
empty string for `ARTIST`, `album_artist`, `TITLE`, `DATE`, and the sentinel
`"error"` for `ISRC`. -/
def GetTrackMetaData (probeResult : Option (List MainStream)) (path : String) :
    Option SongMetadata :=
  match probeResult with
  | none => none
  | some streams =>
      match firstAudioTags streams with
      | none => none
      | some none => none
      | some (some tags) =>
          some { Artist := (tags.lookup "ARTIST").getD ""
                 AlbumArtist := (tags.lookup "album_artist").getD ""
                 Title := (tags.lookup "TITLE").getD ""
                 Year := (tags.lookup "DATE").getD ""
                 ISRC := (tags.lookup "ISRC").getD "error"
                 FilePath := path }

/-- The body of a catalog API response as far as `main.py` inspects it:
either text that is not parseable JSON, or a parsed object whose
`"recordings"` key is absent (`none`) or holds a list of recording objects
(each modelled by the `ISRCMetadata` field set it is unpacked into). -/
inductive CatalogResp where
  | unparseable : CatalogResp
  | parsed (recordings : Option (List ISRCMetadata)) : CatalogResp

/-- `GetISRCMetadata` after the POST: unparseable JSON is logged and returns
`None`; a parsed object without a `"recordings"` key raises `KeyError` at
`json_obj['recordings']`; an empty match list is logged and returns `None`;
otherwise the first match is taken. -/
def getISRCMetadataE : CatalogResp → Except Err (Option ISRCMetadata)
  | .unparseable => .ok none
  | .parsed none => .error .keyError
  | .parsed (some []) => .ok none
  | .parsed (some (r :: _)) => .ok (some r)

/-- `DoesExplicitVersionExist` after the POST: unparseable JSON returns
`False`; a parsed object without `"recordings"` raises `KeyError` at
`dump["recordings"]`; otherwise scan every match for `isExplicit == "True"`. -/
def doesExplicitVersionExistE : CatalogResp → Except Err Bool
  | .unparseable => .ok false
  | .parsed none => .error .keyError
  | .parsed (some recs) => .ok (recs.any (fun rec => rec.isExplicit == "True"))

/-- One row of the `music` table, in the column order of the `INSERT`. -/
structure Row where
  isrc : String
  recordingTitle : String
  isrcFailureCode : String
  recordingArtistName : String
  recordingYear : String
  isValidIsrc : String
  recordingVersion : String
  duration : String
  isExplicit : String
  doesExplicitExist : String
  filePath : String
deriving DecidableEq

/-- Python `str(bool)`. -/
def pyStrBool (b : Bool) : String :=
  if b then "True" else "False"

/-- The row inserted for one processed file: the track's ISRC first (the
dedup key), then the catalog fields, the stringified explicit-exists flag,
and the file path. -/
def mkRow (data : SongMetadata) (im : ISRCMetadata) (doesExplicitExist : Bool) : Row :=
  { isrc := data.ISRC
    recordingTitle := im.recordingTitle
    isrcFailureCode := im.isrcFailureCode
    recordingArtistName := im.recordingArtistName
    recordingYear := im.recordingYear
    isValidIsrc := im.isValidIsrc
    recordingVersion := im.recordingVersion
    duration := im.duration
    isExplicit := im.isExplicit
    doesExplicitExist := pyStrBool doesExplicitExist
    filePath := data.FilePath }

/-- What the outside world returns for one file of the orchestrator loop:
the result of `GetTrackMetaData`, the response body seen by
`GetISRCMetadata`, and the response body seen by `DoesExplicitVersionExist`. -/
structure FileEnv where
  meta : Option SongMetadata
  isrcResp : CatalogResp
  explicitResp : CatalogResp

/-- The explicit-version stage of the loop body: a track already flagged
explicit needs no search, otherwise delegate to the fuzzy search. -/
def explicitStageE (env : FileEnv) (im : ISRCMetadata) : Except Err Bool :=
  if im.isExplicit == "True" then .ok true
  else doesExplicitVersionExistE env.explicitResp

/-- One iteration of the `for song in song_paths` loop over the database
state (the list of `music` rows, `INSERT` appending): failed normalization
skips; a row with the same ISRC skips (`SELECT ... where isrc = ?`); a failed
catalog lookup skips; otherwise resolve the explicit flag and insert exactly
one row.  An `.error` is an exception escaping the iteration. -/
def processSongE (db : List Row) (env : FileEnv) : Except Err (List Row) :=
  match env.meta with
  | none => .ok db
  | some data =>
      if db.any (fun r => r.isrc == data.ISRC) then .ok db
      else
        match getISRCMetadataE env.isrcResp with
        | .error e => .error e
        | .ok none => .ok db
        | .ok (some im) =>
            match explicitStageE env im with
            | .error e => .error e
            | .ok dee => .ok (db ++ [mkRow data im dee])

/-- The whole `try: for song in song_paths: ...` loop: iterations run in
sequence; the first escaping exception is caught by the `except` clause
outside the loop, so it aborts the entire loop, leaving the database as the
preceding iterations left it (the insert is the last statement of an
iteration, so an aborted iteration has not modified the database). -/
def runLoop (db : List Row) : List FileEnv → List Row
  | [] => db
  | env :: rest =>
      match processSongE db env with
      | .ok db2 => runLoop db2 rest
      | .error _ => db

/-- The dedup invariant: for every ISRC value, the store holds at most one
row with that ISRC. -/
def atMostOneRowPerIsrc (db : List Row) : Prop :=
  ∀ s : String, (db.filter (fun r => r.isrc == s)).length ≤ 1

/-! ### The shared fuzzy-search payload (`search_payload`, `main.py`) -/

/-- The module-level `search_payload` template as the tuple of its leaf
fields; for the three keys whose value is a nested `{"value": ...}` object,
the field holds that inner value. -/
structure SearchPayload where
  recordingArtistName : String
  recordingTitle : String
  releaseName : String
  releaseYear : String
  recordingVersion : String
  recordingYear : String
  recordingType : String
  start : Nat
  number : Nat
  showReleases : Bool
deriving DecidableEq

/-- The initial value of the module-level `search_payload`. -/
def search_payload : SearchPayload :=
  { recordingArtistName := ""
    recordingTitle := ""
    releaseName := ""
    releaseYear := ""
    recordingVersion := ""
    recordingYear := ""
    recordingType := ""
    start := 0
    number := 100
    showReleases := false }

/-- The three in-place assignments at the top of `DoesExplicitVersionExist`:
overwrite the artist-name value, the title value and the recording year with
the given song's fields. -/
def updateSearchPayload (p : SearchPayload) (song : ISRCMetadata) : SearchPayload :=
  { p with
    recordingArtistName := song.recordingArtistName
    recordingTitle := song.recordingTitle
    recordingYear := song.recordingYear }

/-- `json.dumps(search_payload)` with default separators and the template's
key order (values are assumed to contain no characters that JSON escapes,
which holds for every literal this development evaluates). -/
def dumpsSearchPayload (p : SearchPayload) : String :=
  "\x7b\"searchFields\": \x7b\"recordingArtistName\": \x7b\"value\": \""
    ++ p.recordingArtistName
    ++ "\"\x7d, \"recordingTitle\": \x7b\"value\": \"" ++ p.recordingTitle
    ++ "\"\x7d, \"releaseName\": \x7b\"value\": \"" ++ p.releaseName
    ++ "\"\x7d, \"releaseYear\": \"" ++ p.releaseYear
    ++ "\", \"recordingVersion\": \x7b\"value\": \"" ++ p.recordingVersion
    ++ "\"\x7d, \"recordingYear\": \"" ++ p.recordingYear
    ++ "\", \"recordingType\": \"" ++ p.recordingType
    ++ "\"\x7d, \"start\": " ++ toString p.start
    ++ ", \"number\": " ++ toString p.number
    ++ ", \"showReleases\": " ++ (if p.showReleases then "true" else "false")
    ++ "\x7d"

/-! ### Helper lemmas -/

theorem firstAudioTags_all_other {streams : List MainStream}
    (h : ∀ s ∈ streams, s = .otherStream) : firstAudioTags streams = none := by
  induction streams with
  | nil => rfl
  | cons s rest ih =>
      have hs := h s (List.mem_cons_self ..)
      subst hs
      simpa [firstAudioTags] using ih (fun s hs => h s (List.mem_cons_of_mem _ hs))

theorem firstAudioTags_append {pre : List MainStream} (t : Option (List (String × String)))
    (rest : List MainStream) (h : ∀ s ∈ pre, s = .otherStream) :
    firstAudioTags (pre ++ .audioStream t :: rest) = some t := by
  induction pre with
  | nil => rfl
  | cons s pre ih =>
      have hs := h s (List.mem_cons_self ..)
      subst hs
      simpa [firstAudioTags] using ih (fun s hs => h s (List.mem_cons_of_mem _ hs))

/-- C2: metadata normalization (`GetTrackMetaData`) builds its flat record
from the first audio stream's tag dictionary — each of artist, album-artist,
title and year defaulting to `""` when absent, a missing ISRC yielding the
sentinel `"error"` — and returns the absence signal `None` (not an
exception) when the probe result has no audio stream or when the first audio
stream has no tag dictionary. -/
theorem getTrackMetaData_spec :
    (∀ path, GetTrackMetaData none path = none)
    ∧ (∀ (streams : List MainStream) (path : String),
        (∀ s ∈ streams, s = .otherStream) →
        GetTrackMetaData (some streams) path = none)
    ∧ (∀ (pre rest : List MainStream) (path : String),
        (∀ s ∈ pre, s = .otherStream) →
        GetTrackMetaData (some (pre ++ .audioStream none :: rest)) path = none)
    ∧ (∀ (pre rest : List MainStream) (tags : List (String × String)) (path : String),
        (∀ s ∈ pre, s = .otherStream) →
        ∃ m, GetTrackMetaData (some (pre ++ .audioStream (some tags) :: rest)) path = some m
          ∧ (tags.lookup "ARTIST" = none → m.Artist = "")
          ∧ (∀ a, tags.lookup "ARTIST" = some a → m.Artist = a)
          ∧ (tags.lookup "album_artist" = none → m.AlbumArtist = "")
          ∧ (∀ a, tags.lookup "album_artist" = some a → m.AlbumArtist = a)
          ∧ (tags.lookup "TITLE" = none → m.Title = "")
          ∧ (∀ a, tags.lookup "TITLE" = some a → m.Title = a)
          ∧ (tags.lookup "DATE" = none → m.Year = "")
          ∧ (∀ a, tags.lookup "DATE" = some a → m.Year = a)
          ∧ (tags.lookup "ISRC" = none → m.ISRC = "error")
          ∧ (∀ a, tags.lookup "ISRC" = some a → m.ISRC = a)
          ∧ m.FilePath = path) := by
  refine ⟨fun path => rfl, ?_, ?_, ?_⟩
  · intro streams path h
    simp [GetTrackMetaData, firstAudioTags_all_other h]
  · intro pre rest path h
    simp [GetTrackMetaData, firstAudioTags_append none rest h]
  · intro pre rest tags path h
    refine ⟨{ Artist := (tags.lookup "ARTIST").getD ""
              AlbumArtist := (tags.lookup "album_artist").getD ""
              Title := (tags.lookup "TITLE").getD ""
              Year := (tags.lookup "DATE").getD ""
              ISRC := (tags.lookup "ISRC").getD "error"
              FilePath := path },
      by simp [GetTrackMetaData, firstAudioTags_append (some tags) rest h],
      fun h0 => by simp [h0], fun a ha => by simp [ha],
      fun h0 => by simp [h0], fun a ha => by simp [ha],
      fun h0 => by simp [h0], fun a ha => by simp [ha],
      fun h0 => by simp [h0], fun a ha => by simp [ha],
      fun h0 => by simp [h0], fun a ha => by simp [ha], rfl⟩

/-- C2 witness: a concrete probe result — one non-audio stream followed by an
audio stream tagged with `TITLE` and `ISRC` only — normalizes to the record
with artist/album-artist/year defaulted to `""`. -/
theorem getTrackMetaData_spec_witness :
    ∃ m, GetTrackMetaData
        (some ([MainStream.otherStream] ++
          .audioStream (some [("TITLE", "T"), ("ISRC", "X1")]) :: [])) "f.mp3" = some m
      ∧ m.Artist = "" ∧ m.Title = "T" ∧ m.ISRC = "X1" ∧ m.FilePath = "f.mp3" := by
  obtain ⟨m, hm, hA0, hA1, hAA0, hAA1, hT0, hT1, hD0, hD1, hI0, hI1, hP⟩ :=
    getTrackMetaData_spec.2.2.2 [MainStream.otherStream] []
      [("TITLE", "T"), ("ISRC", "X1")] "f.mp3" (by intro s hs; simpa using hs)
  exact ⟨m, hm, hA0 (by decide), hT1 "T" (by decide), hI1 "X1" (by decide), hP⟩

/-- C3 counterexample: the frozen claim promises the generic `FFstream`
variant without error for *any* dictionary whose `codec_type` is not one of
the four tags, but an unhashable `codec_type` (a JSON array) makes the
CPython constructor-table lookup `_KNOWN_FFSTREAM_SUBCLASSES.get(codec_type)`
raise `TypeError` instead. -/
theorem streamSubclass_dispatch_cex :
    constructFFstreamSubclass [("codec_type", JVal.jarr [])] = .error .typeError
    ∧ constructFFstreamSubclass [("codec_type", JVal.jarr [])]
        ≠ .ok (.generic [("codec_type", JVal.jarr [])]) := by
  refine ⟨rfl, fun h => ?_⟩
  have h2 : (Except.error Err.typeError : Except Err FFstreamObj)
      = .ok (.generic [("codec_type", JVal.jarr [])]) := h
  exact Except.noConfusion h2

/-- C3 amended: constructing the audio variant from stream data whose
`codec_type` is `"video"` signals the stream-subclass-mismatch error; the
dispatch function sends a dictionary whose `codec_type` is absent — or
present with a hashable value (string, number, boolean, null) other than the
four recognized tag strings — to the generic `FFstream` variant without
error; an unhashable `codec_type` value (a JSON array or object) instead
raises `TypeError` at the constructor-table lookup. -/
theorem streamSubclass_dispatch_spec :
    (∀ d : JDict, jlookup d "codec_type" = some (.jstr "video") →
        mkFFaudioStream d =
          .error (.ffStreamSubclass "FFaudioStream" (some (.jstr "video")) "audio"))
    ∧ (∀ d : JDict, jlookup d "codec_type" = none →
        constructFFstreamSubclass d = .ok (.generic d))
    ∧ (∀ (d : JDict) (s : String), jlookup d "codec_type" = some (.jstr s) →
        s ∉ (["attachment", "audio", "subtitle", "video"] : List String) →
        constructFFstreamSubclass d = .ok (.generic d))
    ∧ (∀ (d : JDict) (ct : JVal), jlookup d "codec_type" = some ct →
        jhashable ct = true → (∀ s, ct ≠ .jstr s) →
        constructFFstreamSubclass d = .ok (.generic d))
    ∧ (∀ (d : JDict) (l : List JVal), jlookup d "codec_type" = some (.jarr l) →
        constructFFstreamSubclass d = .error .typeError)
    ∧ (∀ (d : JDict) (o : List (String × JVal)),
        jlookup d "codec_type" = some (.jobj o) →
        constructFFstreamSubclass d = .error .typeError) := by
  refine ⟨?_, ?_, ?_, ?_, ?_, ?_⟩
  · intro d hd
    simp only [mkFFaudioStream, hd]
    rfl
  · intro d hd
    simp only [constructFFstreamSubclass, hd]
  · intro d s hd hs
    simp only [List.mem_cons, List.mem_singleton, not_or] at hs
    simp only [constructFFstreamSubclass, hd, jhashable, if_true]
    split
    · rename_i ct heq; injection heq with h; exact absurd h hs.1
    · rename_i ct heq; injection heq with h; exact absurd h hs.2.1
    · rename_i ct heq; injection heq with h; exact absurd h hs.2.2.1
    · rename_i ct heq; injection heq with h; exact absurd h hs.2.2.2.1
    · rfl
  · intro d ct hd hh hs
    simp only [constructFFstreamSubclass, hd, hh, if_true]
    split
    · exact absurd rfl (hs "attachment")
    · exact absurd rfl (hs "audio")
    · exact absurd rfl (hs "subtitle")
    · exact absurd rfl (hs "video")
    · rfl
  · intro d l hd
    simp only [constructFFstreamSubclass, hd]
    rfl
  · intro d o hd
    simp only [constructFFstreamSubclass, hd]
    rfl

/-- C3 witness: concrete instances — audio construction against
`codec_type: "video"` errors; dispatch on `codec_type: "data"` and on a
dictionary without `codec_type` yields the generic variant; dispatch on an
array-valued `codec_type` raises `TypeError`. -/
theorem streamSubclass_dispatch_spec_witness :
    mkFFaudioStream [("codec_type", JVal.jstr "video")] =
      .error (.ffStreamSubclass "FFaudioStream" (some (.jstr "video")) "audio")
    ∧ constructFFstreamSubclass [("codec_type", JVal.jstr "data")] =
      .ok (.generic [("codec_type", JVal.jstr "data")])
    ∧ constructFFstreamSubclass [("index", JVal.jint 0)] =
      .ok (.generic [("index", JVal.jint 0)])
    ∧ constructFFstreamSubclass [("codec_type", JVal.jarr [JVal.jint 1])] =
      .error .typeError :=
  ⟨streamSubclass_dispatch_spec.1 _ rfl,
   streamSubclass_dispatch_spec.2.2.1 _ "data" rfl (by decide),
   streamSubclass_dispatch_spec.2.1 _ rfl,
   streamSubclass_dispatch_spec.2.2.2.2.1 _ [JVal.jint 1] rfl⟩

/-- C9: a catalog response that parses as JSON but has no `"recordings"` key
makes `GetISRCMetadata` raise (`KeyError`), unlike the handled unparseable
and empty-match cases which log and return `None`; inside the orchestrator
that exception aborts the whole loop — the database is left as it was and no
later file is processed — instead of skipping the one file. -/
theorem missing_recordings_key_aborts_loop :
    getISRCMetadataE (.parsed none) = .error .keyError
    ∧ getISRCMetadataE .unparseable = .ok none
    ∧ getISRCMetadataE (.parsed (some [])) = .ok none
    ∧ (∀ (db : List Row) (env : FileEnv) (data : SongMetadata) (rest : List FileEnv),
        env.meta = some data →
        db.any (fun r => r.isrc == data.ISRC) = false →
        env.isrcResp = .parsed none →
        runLoop db (env :: rest) = db) := by
  refine ⟨rfl, rfl, rfl, ?_⟩
  intro db env data rest hm hdup hresp
  simp only [runLoop, processSongE, hm, hdup, hresp]
  rfl

/-- C9 witness: with an empty store, a first file whose catalog response
lacks `"recordings"`, and a second file that would otherwise be inserted,
the loop aborts immediately: the store stays empty. -/
theorem missing_recordings_key_aborts_loop_witness :
    runLoop []
      [{ meta := some { Artist := "A", Title := "T", Year := "2020", ISRC := "X1",
                        AlbumArtist := "A", FilePath := "f1.mp3" },
         isrcResp := .parsed none, explicitResp := .unparseable },
       { meta := some { Artist := "B", Title := "U", Year := "2021", ISRC := "X2",
                        AlbumArtist := "B", FilePath := "f2.mp3" },
         isrcResp := .unparseable, explicitResp := .unparseable }] = [] :=
  missing_recordings_key_aborts_loop.2.2.2 [] _ _ _ rfl rfl rfl

/-- C10: `DoesExplicitVersionExist` overwrites exactly the artist-name value,
title value and recording-year of the shared `search_payload` template with
the given song's fields, leaving every other template field unchanged; hence
the serialized request body of a call depends only on the current song and
the fixed template fields, not on any previous call (the previous call's
writes are completely overwritten). -/
theorem searchPayload_update_spec :
    (∀ (p : SearchPayload) (s : ISRCMetadata),
        (updateSearchPayload p s).recordingArtistName = s.recordingArtistName
        ∧ (updateSearchPayload p s).recordingTitle = s.recordingTitle
        ∧ (updateSearchPayload p s).recordingYear = s.recordingYear
        ∧ (updateSearchPayload p s).releaseName = p.releaseName
        ∧ (updateSearchPayload p s).releaseYear = p.releaseYear
        ∧ (updateSearchPayload p s).recordingVersion = p.recordingVersion
        ∧ (updateSearchPayload p s).recordingType = p.recordingType
        ∧ (updateSearchPayload p s).start = p.start
        ∧ (updateSearchPayload p s).number = p.number
        ∧ (updateSearchPayload p s).showReleases = p.showReleases)
    ∧ (∀ (p : SearchPayload) (s1 s2 : ISRCMetadata),
        updateSearchPayload (updateSearchPayload p s1) s2 = updateSearchPayload p s2)
    ∧ (∀ (p q : SearchPayload) (s : ISRCMetadata),
        p.releaseName = q.releaseName → p.releaseYear = q.releaseYear →
        p.recordingVersion = q.recordingVersion → p.recordingType = q.recordingType →
        p.start = q.start → p.number = q.number → p.showReleases = q.showReleases →
        dumpsSearchPayload (updateSearchPayload p s) =
          dumpsSearchPayload (updateSearchPayload q s))
    ∧ (∀ s1 s2 : ISRCMetadata,
        dumpsSearchPayload (updateSearchPayload (updateSearchPayload search_payload s1) s2)
          = dumpsSearchPayload (updateSearchPayload search_payload s2)) := by
  refine ⟨fun p s => ⟨rfl, rfl, rfl, rfl, rfl, rfl, rfl, rfl, rfl, rfl⟩, fun p s1 s2 => rfl,
    ?_, fun s1 s2 => rfl⟩
  intro p q s h1 h2 h3 h4 h5 h6 h7
  have : updateSearchPayload p s = updateSearchPayload q s := by
    cases p; cases q
    simp_all [updateSearchPayload]
  rw [this]

/-- C10 witness: two template states differing only in previously-written
artist/title/year fields serialize identically after the overwrite. -/
theorem searchPayload_update_spec_witness :
    dumpsSearchPayload (updateSearchPayload
        { search_payload with recordingArtistName := "Old", recordingTitle := "Old",
                              recordingYear := "1999" }
        { duration := "", recordingVersion := "", isValidIsrc := "", recordingYear := "2020",
          recordingArtistName := "A", isExplicit := "False", isrc := "X1",
          isrcFailureCode := "", recordingTitle := "T", id := "1" })
      = dumpsSearchPayload (updateSearchPayload search_payload
        { duration := "", recordingVersion := "", isValidIsrc := "", recordingYear := "2020",
          recordingArtistName := "A", isExplicit := "False", isrc := "X1",
          isrcFailureCode := "", recordingTitle := "T", id := "1" }) :=
  searchPayload_update_spec.2.2.1 _ _ _ rfl rfl rfl rfl rfl rfl rfl

/-- C7 counterexample: at the concrete input "stdout not parseable as JSON,
exit status 1" the prober raises the JSON-parse error, not the
subprocess-failure error the claim requires for every non-zero exit. -/
theorem probe_error_order_cex :
    probeClassify none 1 "boom" = .error .ffJsonParse
    ∧ probeClassify none 1 "boom" ≠ .error (.ffSubprocess 1 "boom") := by
  refine ⟨rfl, ?_⟩
  intro h
  injection h with h2
  exact Err.noConfusion h2

/-- C7 amended: the parse of standard output is attempted first, so a parse
failure signals the JSON-parse error whatever the exit status; a non-zero
exit status signals the subprocess-failure error carrying the exit code and
the captured stderr text only when the output parsed successfully; a zero
exit with parsed output succeeds. -/
theorem probe_error_order :
    (∀ (j : JVal) (exitStatus : Int) (errs : String), exitStatus ≠ 0 →
        probeClassify (some j) exitStatus errs = .error (.ffSubprocess exitStatus errs))
    ∧ (∀ (exitStatus : Int) (errs : String),
        probeClassify none exitStatus errs = .error .ffJsonParse)
    ∧ (∀ (j : JVal) (errs : String), probeClassify (some j) 0 errs = .ok j) := by
  refine ⟨?_, fun exitStatus errs => rfl, fun j errs => rfl⟩
  intro j exitStatus errs h
  simp only [probeClassify, if_pos h]

/-- C7 amended witness: a non-zero exit with successfully parsed output at a
concrete input. -/
theorem probe_error_order_witness :
    probeClassify (some .jnull) 1 "err text" = .error (.ffSubprocess 1 "err text") :=
  probe_error_order.1 .jnull 1 "err text" (by decide)

/-- C8 counterexample: `communicate_timeout = None` is not a positive number,
yet `probe`'s validation passes it and reaches the process-spawn point with
no invalid-argument error. -/
theorem timeout_validation_cex :
    probeValidate { ffprobeCmdOverride := none, communicateTimeout := .nonev,
                    verifyLocalMediafile := true, mediaLooksLikeUri := false,
                    mediaFileExists := true } = none
    ∧ ¬ isPositiveNumber .nonev := by
  exact ⟨rfl, fun h => h⟩

/-- C8 amended: for every *non-None* `communicate_timeout` that is not a
positive number, `probe` raises `FFprobeInvalidArgumentError` during the
validation phase that precedes `subprocess.Popen` (provided the earlier
override-file check did not already fail); `None` is accepted, disabling the
timeout. -/
theorem timeout_validation :
    (∀ a : ProbeArgs, a.ffprobeCmdOverride ≠ some false →
        a.communicateTimeout ≠ .nonev →
        ¬ isPositiveNumber a.communicateTimeout →
        ∃ problem, probeValidate a = some (.ffInvalidArgument "communicate_timeout" problem))
    ∧ checkCommunicateTimeout .nonev = none := by
  refine ⟨?_, rfl⟩
  intro a hov ht hpos
  have hcheck : ∃ problem, checkCommunicateTimeout a.communicateTimeout =
      some (.ffInvalidArgument "communicate_timeout" problem) := by
    cases h : a.communicateTimeout with
    | nonev => exact absurd h ht
    | intv n =>
        refine ⟨"Supplied timeout is non-None and non-positive", ?_⟩
        rw [h] at hpos
        simp only [isPositiveNumber, not_lt] at hpos
        simp only [checkCommunicateTimeout, if_pos hpos]
    | floatv q =>
        refine ⟨"Supplied timeout is non-None and non-positive", ?_⟩
        rw [h] at hpos
        simp only [isPositiveNumber, not_lt] at hpos
        simp only [checkCommunicateTimeout, if_pos hpos]
    | otherv => exact ⟨"Supplied timeout is non-None and non-numeric", rfl⟩
  obtain ⟨problem, hp⟩ := hcheck
  refine ⟨problem, ?_⟩
  unfold probeValidate
  cases hov2 : a.ffprobeCmdOverride with
  | none => simp only [hp]
  | some b =>
      cases b with
      | false => exact absurd hov2 hov
      | true => simp only [hp]

/-- C8 amended witness: a concrete non-numeric timeout argument is rejected
with the invalid-argument error before any spawn. -/
theorem timeout_validation_witness :
    ∃ problem,
      probeValidate { ffprobeCmdOverride := none, communicateTimeout := .otherv,
                      verifyLocalMediafile := true, mediaLooksLikeUri := false,
                      mediaFileExists := true }
        = some (.ffInvalidArgument "communicate_timeout" problem) :=
  timeout_validation.1 _ (fun h => Option.noConfusion h) (fun h => PyTimeout.noConfusion h)
    (fun h => h)

theorem processSongE_ok_shape {db db2 : List Row} {env : FileEnv}
    (h : processSongE db env = .ok db2) :
    db2 = db ∨ ∃ data im dee, env.meta = some data
      ∧ db.any (fun r => r.isrc == data.ISRC) = false
      ∧ db2 = db ++ [mkRow data im dee] := by
  cases hm : env.meta with
  | none =>
      simp only [processSongE, hm] at h
      exact Or.inl (Except.ok.inj h).symm
  | some data =>
      simp only [processSongE, hm] at h
      by_cases hdup : db.any (fun r => r.isrc == data.ISRC) = true
      · rw [if_pos hdup] at h
        exact Or.inl (Except.ok.inj h).symm
      · rw [if_neg hdup] at h
        cases hc : getISRCMetadataE env.isrcResp with
        | error e => simp only [hc] at h; exact Except.noConfusion h
        | ok o =>
            simp only [hc] at h
            cases o with
            | none => exact Or.inl (Except.ok.inj h).symm
            | some im =>
                cases he : explicitStageE env im with
                | error e => simp only [he] at h; exact Except.noConfusion h
                | ok dee =>
                    simp only [he] at h
                    exact Or.inr ⟨data, im, dee, rfl,
                      Bool.eq_false_iff.mpr hdup, (Except.ok.inj h).symm⟩

theorem atMostOne_append {db : List Row} {row : Row} {x : String}
    (hinv : atMostOneRowPerIsrc db)
    (hnew : db.any (fun r => r.isrc == x) = false) (hrow : row.isrc = x) :
    atMostOneRowPerIsrc (db ++ [row]) := by
  intro s
  rw [List.filter_append, List.length_append]
  by_cases hs : (row.isrc == s) = true
  · have hsx : s = x := by
      have h1 : row.isrc = s := (beq_iff_eq ..).mp hs
      rw [← h1, hrow]
    subst hsx
    have hnil : db.filter (fun r => r.isrc == s) = [] := by
      rw [List.filter_eq_nil_iff]
      intro r hr
      have hall := List.any_eq_false.mp hnew r hr
      simpa using hall
    simp [hnil, List.filter, hs]
  · have h0 : List.filter (fun r => r.isrc == s) [row] = [] := by
      simp [List.filter, hs]
    rw [h0]
    simpa using hinv s

/-- C1: in the orchestrator loop, a file whose ISRC already has a row in the
store is skipped with no insert; a file with a fresh ISRC whose pipeline
stages all succeed appends exactly one row keyed by that ISRC; consequently
each loop iteration — and hence a whole sequential run — preserves the
invariant that the store holds at most one row per ISRC. -/
theorem dedup_store_spec :
    (∀ (db : List Row) (env : FileEnv) (data : SongMetadata),
        env.meta = some data →
        db.any (fun r => r.isrc == data.ISRC) = true →
        processSongE db env = .ok db)
    ∧ (∀ (db : List Row) (env : FileEnv) (data : SongMetadata)
          (im : ISRCMetadata) (tl : List ISRCMetadata) (dee : Bool),
        env.meta = some data →
        db.any (fun r => r.isrc == data.ISRC) = false →
        env.isrcResp = .parsed (some (im :: tl)) →
        explicitStageE env im = .ok dee →
        processSongE db env = .ok (db ++ [mkRow data im dee])
          ∧ (mkRow data im dee).isrc = data.ISRC)
    ∧ (∀ (db : List Row) (env : FileEnv) (db2 : List Row),
        atMostOneRowPerIsrc db → processSongE db env = .ok db2 →
        atMostOneRowPerIsrc db2)
    ∧ (∀ (db : List Row) (envs : List FileEnv),
        atMostOneRowPerIsrc db → atMostOneRowPerIsrc (runLoop db envs)) := by
  have hstep : ∀ (db : List Row) (env : FileEnv) (db2 : List Row),
      atMostOneRowPerIsrc db → processSongE db env = .ok db2 →
      atMostOneRowPerIsrc db2 := by
    intro db env db2 hinv h
    rcases processSongE_ok_shape h with heq | ⟨data, im, dee, _, hfresh, heq⟩
    · exact heq ▸ hinv
    · exact heq ▸ atMostOne_append hinv hfresh rfl
  refine ⟨?_, ?_, hstep, ?_⟩
  · intro db env data hm hdup
    simp only [processSongE, hm, if_pos hdup]
  · intro db env data im tl dee hm hdup hresp hexp
    refine ⟨?_, rfl⟩
    simp only [processSongE, hm, hdup, hresp, getISRCMetadataE, hexp]
    rfl
  · intro db envs
    induction envs generalizing db with
    | nil => exact fun hinv => hinv
    | cons env rest ih =>
        intro hinv
        simp only [runLoop]
        cases h : processSongE db env with
        | ok db2 => exact ih db2 (hstep db env db2 hinv h)
        | error e => exact hinv

/-- C1 witness: for a concrete already-explicit track with ISRC `"X1"` — a
store already holding its row skips it unchanged; the empty store gains
exactly that one row; the run-loop result satisfies the at-most-one-row
invariant.  (Record fields in positional order of the structure
declarations.) -/
theorem dedup_store_spec_witness :
    processSongE
      [mkRow ⟨"A", "T", "2020", "X1", "A", "f.mp3"⟩
             ⟨"180", "", "1", "2020", "A", "True", "X1", "", "T", "1"⟩ true]
      ⟨some ⟨"A", "T", "2020", "X1", "A", "f.mp3"⟩,
       .parsed (some [⟨"180", "", "1", "2020", "A", "True", "X1", "", "T", "1"⟩]),
       .unparseable⟩
      = .ok [mkRow ⟨"A", "T", "2020", "X1", "A", "f.mp3"⟩
                   ⟨"180", "", "1", "2020", "A", "True", "X1", "", "T", "1"⟩ true]
    ∧ processSongE []
      ⟨some ⟨"A", "T", "2020", "X1", "A", "f.mp3"⟩,
       .parsed (some [⟨"180", "", "1", "2020", "A", "True", "X1", "", "T", "1"⟩]),
       .unparseable⟩
      = .ok ([] ++ [mkRow ⟨"A", "T", "2020", "X1", "A", "f.mp3"⟩
                          ⟨"180", "", "1", "2020", "A", "True", "X1", "", "T", "1"⟩ true])
    ∧ atMostOneRowPerIsrc (runLoop []
      [⟨some ⟨"A", "T", "2020", "X1", "A", "f.mp3"⟩,
        .parsed (some [⟨"180", "", "1", "2020", "A", "True", "X1", "", "T", "1"⟩]),
        .unparseable⟩]) :=
  ⟨dedup_store_spec.1 _ _ _ rfl (by decide),
   (dedup_store_spec.2.1 []
      ⟨some ⟨"A", "T", "2020", "X1", "A", "f.mp3"⟩,
       .parsed (some [⟨"180", "", "1", "2020", "A", "True", "X1", "", "T", "1"⟩]),
       .unparseable⟩
      ⟨"A", "T", "2020", "X1", "A", "f.mp3"⟩
      ⟨"180", "", "1", "2020", "A", "True", "X1", "", "T", "1"⟩
      [] true rfl (by decide) rfl rfl).1,
   dedup_store_spec.2.2.2 _ _ (fun s => by simp)⟩

theorem isDigit_ne {c d : Char} (hc : c.isDigit = true) (hd : d.isDigit = false) :
    c ≠ d := by
  intro h
  subst h
  rw [hc] at hd
  exact Bool.noConfusion hd

theorem chopAt_append {sep : Char} {a : List Char} (b : List Char)
    (h : ∀ c ∈ a, c ≠ sep) : chopAt sep (a ++ sep :: b) = some (a, b) := by
  induction a with
  | nil => simp [chopAt]
  | cons c t ih =>
      have hc : c ≠ sep := h c (List.mem_cons_self ..)
      have ih2 := ih (fun x hx => h x (List.mem_cons_of_mem _ hx))
      simp only [List.cons_append, chopAt, List.append_eq, if_neg hc]
      rw [ih2]
      rfl

theorem parseDigitsNat_digits {a : List Char} (h1 : a ≠ [])
    (h2 : a.all Char.isDigit = true) : parseDigitsNat a = some (digitsToNat a) := by
  unfold parseDigitsNat
  rw [if_pos]
  rw [h2]
  cases a with
  | nil => exact absurd rfl h1
  | cons c t => rfl

theorem parseSignedInt_digits {a : List Char} (h1 : a ≠ [])
    (h2 : a.all Char.isDigit = true) :
    parseSignedInt a = some ((digitsToNat a : Int)) := by
  cases a with
  | nil => exact absurd rfl h1
  | cons c t =>
      have hc : c ≠ '-' :=
        isDigit_ne (List.all_eq_true.mp h2 c (List.mem_cons_self ..)) (by decide)
      rw [parseSignedInt.eq_def]
      split
      · rename_i rest heq
        injection heq with hh _
        exact absurd hh hc
      · rw [parseDigitsNat_digits h1 h2]
        rfl

theorem parseFrac_digits {a b : List Char} (ha1 : a ≠ []) (ha2 : a.all Char.isDigit = true)
    (hb1 : b ≠ []) (hb2 : b.all Char.isDigit = true) :
    parseFrac (a ++ '/' :: b) = some ((digitsToNat a : Int), (digitsToNat b : Int)) := by
  have hne : ∀ c ∈ a, c ≠ '/' := fun c hc =>
    isDigit_ne (List.all_eq_true.mp ha2 c hc) (by decide)
  simp only [parseFrac, chopAt_append b hne, parseSignedInt_digits ha1 ha2,
    parseSignedInt_digits hb1 hb2]

theorem parseFrac_neg_digits {a b : List Char} (ha1 : a ≠ [])
    (ha2 : a.all Char.isDigit = true) (hb1 : b ≠ []) (hb2 : b.all Char.isDigit = true) :
    parseFrac ('-' :: a ++ '/' :: '-' :: b) =
      some (-(digitsToNat a : Int), -(digitsToNat b : Int)) := by
  have hne : ∀ c ∈ '-' :: a, c ≠ '/' := by
    intro c hc
    rcases List.mem_cons.mp hc with h | h
    · subst h; decide
    · exact isDigit_ne (List.all_eq_true.mp ha2 c h) (by decide)
  have hchop : chopAt '/' (('-' :: a) ++ '/' :: ('-' :: b)) = some ('-' :: a, '-' :: b) :=
    chopAt_append _ hne
  simp only [parseFrac, List.cons_append] at hchop ⊢
  rw [hchop]
  simp only [parseSignedInt, parseDigitsNat_digits ha1 ha2, parseDigitsNat_digits hb1 hb2,
    Option.map_some]
  rfl

/-- C5: the ratio accessor returns exactly the integers written in an
`integer/integer` frame-rate string (optionally negative on either side,
never reduced by gcd) and falls back to the caller's default otherwise; the
float accessor divides numerator by denominator but additionally falls back
whenever either side is zero or negative.  `"2997/100"` gives ratio
`(2997, 100)` and float `29.97`; `"abc"` and `"30"` give the default; and
`"-1/0"` gives ratio `(-1, 0)` but float default. -/
theorem frame_rate_parsing_spec :
    (∀ (v : FFvideoObj) (key : String) (dflt : Option (Int × Int)) (a b : List Char),
        a ≠ [] → a.all Char.isDigit = true → b ≠ [] → b.all Char.isDigit = true →
        jlookup v.parsed_json key = some (.jstr ⟨a ++ '/' :: b⟩) →
        get_frame_rate_as_ratio v key dflt =
          some ((digitsToNat a : Int), (digitsToNat b : Int)))
    ∧ (∀ (v : FFvideoObj) (key : String) (dflt : Option (Int × Int)) (a b : List Char),
        a ≠ [] → a.all Char.isDigit = true → b ≠ [] → b.all Char.isDigit = true →
        jlookup v.parsed_json key = some (.jstr ⟨'-' :: a ++ '/' :: '-' :: b⟩) →
        get_frame_rate_as_ratio v key dflt =
          some (-(digitsToNat a : Int), -(digitsToNat b : Int)))
    ∧ (∀ (v : FFvideoObj) (key : String) (dflt : Option ℚ) (n den : Int),
        get_frame_rate_as_ratio v key none = some (n, den) → 0 < n → 0 < den →
        get_frame_rate_as_float v key dflt = some ((n : ℚ) / (den : ℚ)))
    ∧ (∀ (v : FFvideoObj) (key : String) (dflt : Option ℚ) (n den : Int),
        get_frame_rate_as_ratio v key none = some (n, den) → n ≤ 0 ∨ den ≤ 0 →
        get_frame_rate_as_float v key dflt = dflt)
    ∧ (∀ (v : FFvideoObj) (key : String) (dflt : Option (Int × Int)) (dfltq : Option ℚ),
        jlookup v.parsed_json key = some (.jstr "2997/100") →
        get_frame_rate_as_ratio v key dflt = some (2997, 100)
        ∧ get_frame_rate_as_float v key dfltq = some (29.97 : ℚ))
    ∧ (∀ (v : FFvideoObj) (key : String) (dflt : Option (Int × Int)),
        jlookup v.parsed_json key = some (.jstr "abc") →
        get_frame_rate_as_ratio v key dflt = dflt)
    ∧ (∀ (v : FFvideoObj) (key : String) (dflt : Option (Int × Int)),
        jlookup v.parsed_json key = some (.jstr "30") →
        get_frame_rate_as_ratio v key dflt = dflt)
    ∧ (∀ (v : FFvideoObj) (key : String) (dfltq : Option ℚ),
        jlookup v.parsed_json key = some (.jstr "-1/0") →
        get_frame_rate_as_ratio v key none = some (-1, 0)
        ∧ get_frame_rate_as_float v key dfltq = dfltq) := by
  have hratio : ∀ (v : FFvideoObj) (key : String) (dflt : Option (Int × Int)) (s : String),
      jlookup v.parsed_json key = some (.jstr s) →
      get_frame_rate_as_ratio v key dflt =
        (match parseFrac s.data with
         | some p => some p
         | none => dflt) := by
    intro v key dflt s hlk
    simp only [get_frame_rate_as_ratio, hlk]
  refine ⟨?_, ?_, ?_, ?_, ?_, ?_, ?_, ?_⟩
  · intro v key dflt a b ha1 ha2 hb1 hb2 hlk
    rw [hratio v key dflt _ hlk]
    simp only [String.data]
    rw [parseFrac_digits ha1 ha2 hb1 hb2]
  · intro v key dflt a b ha1 ha2 hb1 hb2 hlk
    rw [hratio v key dflt _ hlk]
    simp only [String.data]
    rw [parseFrac_neg_digits ha1 ha2 hb1 hb2]
  · intro v key dflt n den hr hn hden
    simp only [get_frame_rate_as_float, hr]
    rw [if_neg (by omega)]
  · intro v key dflt n den hr hcond
    simp only [get_frame_rate_as_float, hr]
    rw [if_pos hcond]
  · intro v key dflt dfltq hlk
    have h1 : get_frame_rate_as_ratio v key dflt = some (2997, 100) := by
      rw [hratio v key dflt _ hlk]; rfl
    have h0 : get_frame_rate_as_ratio v key none = some (2997, 100) := by
      rw [hratio v key none _ hlk]; rfl
    refine ⟨h1, ?_⟩
    simp only [get_frame_rate_as_float, h0]
    rw [if_neg (by omega)]
    norm_num
  · intro v key dflt hlk
    rw [hratio v key dflt _ hlk]
    rfl
  · intro v key dflt hlk
    rw [hratio v key dflt _ hlk]
    rfl
  · intro v key dfltq hlk
    have h0 : get_frame_rate_as_ratio v key none = some (-1, 0) := by
      rw [hratio v key none _ hlk]; rfl
    refine ⟨h0, ?_⟩
    simp only [get_frame_rate_as_float, h0]
    rw [if_pos (by omega)]

/-- C5 witness: the concrete inputs of the claim evaluated on concrete
video-stream objects. -/
theorem frame_rate_parsing_spec_witness :
    get_frame_rate_as_ratio ⟨[("r_frame_rate", JVal.jstr "2997/100")], none, none, none⟩
        "r_frame_rate" none = some (2997, 100)
    ∧ get_frame_rate_as_float ⟨[("r_frame_rate", JVal.jstr "2997/100")], none, none, none⟩
        "r_frame_rate" none = some (29.97 : ℚ)
    ∧ get_frame_rate_as_ratio ⟨[("r_frame_rate", JVal.jstr "abc")], none, none, none⟩
        "r_frame_rate" (some (30, 1)) = some (30, 1)
    ∧ get_frame_rate_as_ratio ⟨[("r_frame_rate", JVal.jstr "2/4")], none, none, none⟩
        "r_frame_rate" none = some (2, 4)
    ∧ get_frame_rate_as_float ⟨[("r_frame_rate", JVal.jstr "-1/0")], none, none, none⟩
        "r_frame_rate" none = none :=
  ⟨(frame_rate_parsing_spec.2.2.2.2.1
      ⟨[("r_frame_rate", JVal.jstr "2997/100")], none, none, none⟩
      "r_frame_rate" none none rfl).1,
   (frame_rate_parsing_spec.2.2.2.2.1
      ⟨[("r_frame_rate", JVal.jstr "2997/100")], none, none, none⟩
      "r_frame_rate" none none rfl).2,
   frame_rate_parsing_spec.2.2.2.2.2.1
      ⟨[("r_frame_rate", JVal.jstr "abc")], none, none, none⟩
      "r_frame_rate" (some (30, 1)) rfl,
   (frame_rate_parsing_spec.1
      ⟨[("r_frame_rate", JVal.jstr "2/4")], none, none, none⟩
      "r_frame_rate" none ['2'] ['4'] (by decide) (by decide)
      (by decide) (by decide) (by rfl)).trans (by decide),
   (frame_rate_parsing_spec.2.2.2.2.2.2.2
      ⟨[("r_frame_rate", JVal.jstr "-1/0")], none, none, none⟩
      "r_frame_rate" none rfl).2⟩

theorem datasizeLoop_spec {d : ℚ} (hd : 1 < d) (b10 : Bool) (suffix : String) :
    ∀ (us : List String) (num : ℚ), 1 ≤ |num| → |num| < d ^ (us.length + 1) →
    ∃ k, k ≤ us.length ∧
      datasizeLoop d b10 suffix num us =
        datasizeEntry b10 suffix (num / d ^ k) (us.getD k "Y")
      ∧ 1 ≤ |num / d ^ k| ∧ |num / d ^ k| < d := by
  intro us
  induction us with
  | nil =>
      intro num h1 h2
      refine ⟨0, Nat.le_refl 0, ?_, ?_, ?_⟩
      · simp [datasizeLoop, List.getD]
      · simpa using h1
      · simpa using h2
  | cons u us ih =>
      intro num h1 h2
      by_cases hlt : |num| < d
      · refine ⟨0, Nat.zero_le _, ?_, ?_, ?_⟩
        · simp [datasizeLoop, hlt]
        · simpa using h1
        · simpa using hlt
      · have hd0 : (0 : ℚ) < d := lt_trans one_pos hd
        have habs : |num / d| = |num| / d := by rw [abs_div, abs_of_pos hd0]
        have h1' : (1 : ℚ) ≤ |num / d| := by
          rw [habs, le_div_iff₀ hd0, one_mul]
          exact le_of_not_lt hlt
        have h2' : |num / d| < d ^ (us.length + 1) := by
          rw [habs, div_lt_iff₀ hd0]
          calc |num| < d ^ ((u :: us).length + 1) := h2
            _ = d ^ (us.length + 1) * d := by rw [List.length_cons, pow_succ]
        obtain ⟨k, hk, heq, hb1, hb2⟩ := ih (num / d) h1' h2'
        have hdiv : num / d / d ^ k = num / d ^ (k + 1) := by
          rw [div_div, ← pow_succ']
        refine ⟨k + 1, Nat.succ_le_succ hk, ?_, ?_, ?_⟩
        · simp only [datasizeLoop, if_neg hlt]
          rw [heq, hdiv, List.getD_cons_succ]
        · rw [← hdiv]; exact hb1
        · rw [← hdiv]; exact hb2

theorem get_datasize_eq_loop (j : JDict) (key : String) {v : JVal} {q : ℚ}
    (hlk : jlookup j key = some v) (hfl : pyFloat v = some q)
    (default : Option String) (suffix : String) (b10 : Bool) :
    get_datasize_as_human j key default suffix b10 =
      some (datasizeLoop (sizeDivisor b10) b10 suffix q humanUnits) := by
  simp only [get_datasize_as_human, hlk, hfl]

theorem fmtOneDec_eq {q : ℚ} {z : Int} (h : ⌊q * 10 + 1 / 2⌋ = z) (hz : 0 ≤ z) :
    fmtOneDec q = fmtNat1 z.toNat := by
  unfold fmtOneDec
  rw [h, if_neg (by omega)]

/-- C4 amended: for a looked-up, float-convertible value whose magnitude lies
in `[1, divisor^9)` (divisor 1000 base-10, 1024 base-2), the formatter's
numeric part is the input scaled into `[1, divisor)` paired with the correct
unit prefix (the `k`-th prefix for scaling by `divisor^k`, `"Y"` after the
eight listed prefixes), one decimal place, suffix appended; and concretely
`1185288357` with suffix `"B"` in base-10 yields `"1.2 GB"`.  (Inputs of
magnitude below 1 — e.g. `0` — are emitted unscaled with numeric part
outside `[1, divisor)`, which is what forces the magnitude lower bound; see
the counterexample.) -/
theorem get_datasize_scaling :
    (∀ (j : JDict) (key suffix : String) (v : JVal) (q : ℚ) (b10 : Bool),
        jlookup j key = some v → pyFloat v = some q →
        1 ≤ |q| → |q| < sizeDivisor b10 ^ 9 →
        ∃ k, k ≤ 8 ∧
          get_datasize_as_human j key none suffix b10 =
            some (datasizeEntry b10 suffix (q / sizeDivisor b10 ^ k) (humanUnits.getD k "Y"))
          ∧ 1 ≤ |q / sizeDivisor b10 ^ k| ∧ |q / sizeDivisor b10 ^ k| < sizeDivisor b10)
    ∧ get_datasize_as_human [("size", JVal.jstr "1185288357")] "size" none "B" true
        = some "1.2 GB" := by
  constructor
  · intro j key suffix v q b10 hlk hfl h1 h9
    have hd : (1 : ℚ) < sizeDivisor b10 := by
      cases b10 <;> norm_num [sizeDivisor]
    obtain ⟨k, hk, heq, hb1, hb2⟩ :=
      datasizeLoop_spec hd b10 suffix humanUnits q h1 (by simpa [humanUnits] using h9)
    refine ⟨k, by simpa [humanUnits] using hk, ?_, hb1, hb2⟩
    simp only [get_datasize_as_human, hlk, hfl]
    rw [heq]
  · rw [get_datasize_eq_loop [("size", JVal.jstr "1185288357")] "size"
      (v := JVal.jstr "1185288357") (q := 1185288357) rfl (by decide)]
    rw [show sizeDivisor true = 1000 from rfl]
    simp only [humanUnits, datasizeLoop]
    rw [if_neg (by rw [abs_of_pos (by norm_num)]; norm_num)]
    rw [if_neg (by rw [abs_of_pos (by norm_num)]; norm_num)]
    rw [if_neg (by rw [abs_of_pos (by norm_num)]; norm_num)]
    rw [if_pos (by rw [abs_of_pos (by norm_num)]; norm_num)]
    simp only [datasizeEntry, if_neg (fun h => Bool.noConfusion h.1)]
    rw [fmtOneDec_eq (z := 12) (by rw [Int.floor_eq_iff]; norm_num) (by norm_num)]
    decide

/-- C4 counterexample: the well-formed byte-size `0` is formatted as
`"0.0 B"` — its numeric part `0.0` renders the value `0`, which no scaling
can place in `[1, 1000)`, refuting the claim's universal scaling guarantee. -/
theorem get_datasize_scaling_cex :
    get_datasize_as_human [("size", JVal.jstr "0")] "size" none "B" true = some "0.0 B"
    ∧ fmtOneDec 0 = "0.0"
    ∧ ¬ (1 : ℚ) ≤ |(0 : ℚ)| := by
  refine ⟨?_, ?_, by norm_num⟩
  · rw [get_datasize_eq_loop [("size", JVal.jstr "0")] "size"
      (v := JVal.jstr "0") (q := 0) rfl (by decide)]
    rw [show sizeDivisor true = 1000 from rfl]
    simp only [humanUnits, datasizeLoop]
    rw [if_pos (by norm_num)]
    simp only [datasizeEntry, if_neg (fun h => Bool.noConfusion h.1)]
    rw [fmtOneDec_eq (z := 0) (by rw [Int.floor_eq_iff]; norm_num) (by norm_num)]
    decide
  · rw [fmtOneDec_eq (z := 0) (by rw [Int.floor_eq_iff]; norm_num) (by norm_num)]
    decide

/-- C4 witness: the amended scaling theorem applied at the concrete input
`1185288357` (base-10, suffix `"B"`). -/
theorem get_datasize_scaling_witness :
    ∃ k, k ≤ 8 ∧
      get_datasize_as_human [("size", JVal.jstr "1185288357")] "size" none "B" true =
        some (datasizeEntry true "B" ((1185288357 : ℚ) / sizeDivisor true ^ k)
          (humanUnits.getD k "Y"))
      ∧ 1 ≤ |(1185288357 : ℚ) / sizeDivisor true ^ k|
      ∧ |(1185288357 : ℚ) / sizeDivisor true ^ k| < sizeDivisor true :=
  get_datasize_scaling.1 _ "size" "B" (JVal.jstr "1185288357") 1185288357 true rfl
    (by decide)
    (by rw [abs_of_pos (by norm_num)]; norm_num)
    (by rw [show sizeDivisor true = 1000 from rfl, abs_of_pos (by norm_num)]; norm_num)

/-- C6: every derived-value accessor of the probe-result model is a total
function of its inputs that either returns a genuinely derived value (key
present, conversion/pattern/arithmetic succeeding) or returns exactly the
caller-supplied default — never an exception.  Each conjunct characterizes
one accessor as this two-case dichotomy over all inputs. -/
theorem accessors_never_raise :
    (∀ (j : JDict) (key : String) (dflt : Option ℚ),
        get_as_float j key dflt = dflt ∨
        ∃ v q, jlookup j key = some v ∧ pyFloat v = some q ∧
          get_as_float j key dflt = some q)
    ∧ (∀ (j : JDict) (key : String) (dflt : Option Int),
        get_as_int j key dflt = dflt ∨
        ∃ v n, jlookup j key = some v ∧ pyInt v = some n ∧
          get_as_int j key dflt = some n)
    ∧ (∀ (j : JDict) (key : String) (dflt : Option String) (suffix : String) (b10 : Bool),
        get_datasize_as_human j key dflt suffix b10 = dflt ∨
        ∃ v q, jlookup j key = some v ∧ pyFloat v = some q ∧
          get_datasize_as_human j key dflt suffix b10 =
            some (datasizeLoop (sizeDivisor b10) b10 suffix q humanUnits))
    ∧ (∀ (j : JDict) (dflt : Option String),
        get_duration_as_human j dflt = dflt ∨
        ∃ v q, jlookup j "duration" = some v ∧ pyFloat v = some q ∧
          get_duration_as_human j dflt = some (durationRender q))
    ∧ (∀ (v : FFvideoObj) (key : String) (dflt : Option (Int × Int)),
        get_frame_rate_as_ratio v key dflt = dflt ∨
        ∃ s n den, jlookup v.parsed_json key = some (.jstr s) ∧
          parseFrac s.data = some (n, den) ∧
          get_frame_rate_as_ratio v key dflt = some (n, den))
    ∧ (∀ (v : FFvideoObj) (key : String) (dflt : Option ℚ),
        get_frame_rate_as_float v key dflt = dflt ∨
        ∃ n den, get_frame_rate_as_ratio v key none = some (n, den) ∧
          0 < n ∧ 0 < den ∧
          get_frame_rate_as_float v key dflt = some ((n : ℚ) / (den : ℚ)))
    ∧ (∀ (v : FFvideoObj) (dflt : Option (Int × Int)),
        get_frame_shape v dflt = dflt ∨
        ∃ w h, v.width = some w ∧ v.height = some h ∧
          (get_frame_shape v dflt = some (w, h) ∨ get_frame_shape v dflt = some (h, w)))
    ∧ (∀ (v : FFvideoObj) (dflt : Option JVal),
        get_frame_rotation v dflt = dflt ∨
        ∃ items r rest, v.side_data_list = some (.jarr items) ∧
          rotationsOf items = some (r :: rest) ∧
          get_frame_rotation v dflt = some r) := by
  refine ⟨?_, ?_, ?_, ?_, ?_, ?_, ?_, ?_⟩
  · intro j key dflt
    cases h : jlookup j key with
    | none => exact Or.inl (by simp only [get_as_float, h])
    | some v =>
        cases hq : pyFloat v with
        | none => exact Or.inl (by simp only [get_as_float, h, hq])
        | some q => exact Or.inr ⟨v, q, rfl, hq, by simp only [get_as_float, h, hq]⟩
  · intro j key dflt
    cases h : jlookup j key with
    | none => exact Or.inl (by simp only [get_as_int, h])
    | some v =>
        cases hq : pyInt v with
        | none => exact Or.inl (by simp only [get_as_int, h, hq])
        | some n => exact Or.inr ⟨v, n, rfl, hq, by simp only [get_as_int, h, hq]⟩
  · intro j key dflt suffix b10
    cases h : jlookup j key with
    | none => exact Or.inl (by simp only [get_datasize_as_human, h])
    | some v =>
        cases hq : pyFloat v with
        | none => exact Or.inl (by simp only [get_datasize_as_human, h, hq])
        | some q =>
            exact Or.inr ⟨v, q, rfl, hq, by simp only [get_datasize_as_human, h, hq]⟩
  · intro j dflt
    cases h : jlookup j "duration" with
    | none => exact Or.inl (by simp only [get_duration_as_human, h])
    | some v =>
        cases hq : pyFloat v with
        | none => exact Or.inl (by simp only [get_duration_as_human, h, hq])
        | some q =>
            exact Or.inr ⟨v, q, rfl, hq, by simp only [get_duration_as_human, h, hq]⟩
  · intro v key dflt
    cases h : jlookup v.parsed_json key with
    | none => exact Or.inl (by simp only [get_frame_rate_as_ratio, h])
    | some jv =>
        cases jv with
        | jstr s =>
            cases hp : parseFrac s.data with
            | none => exact Or.inl (by simp only [get_frame_rate_as_ratio, h, hp])
            | some p =>
                exact Or.inr ⟨s, p.1, p.2, rfl, by rw [hp],
                  by simp only [get_frame_rate_as_ratio, h, hp]⟩
        | jnull => exact Or.inl (by simp only [get_frame_rate_as_ratio, h])
        | jbool b => exact Or.inl (by simp only [get_frame_rate_as_ratio, h])
        | jint n => exact Or.inl (by simp only [get_frame_rate_as_ratio, h])
        | jfloat q => exact Or.inl (by simp only [get_frame_rate_as_ratio, h])
        | jarr l => exact Or.inl (by simp only [get_frame_rate_as_ratio, h])
        | jobj o => exact Or.inl (by simp only [get_frame_rate_as_ratio, h])
  · intro v key dflt
    cases h : get_frame_rate_as_ratio v key none with
    | none => exact Or.inl (by simp only [get_frame_rate_as_float, h])
    | some p =>
        obtain ⟨n, den⟩ := p
        by_cases hc : n ≤ 0 ∨ den ≤ 0
        · refine Or.inl ?_
          simp only [get_frame_rate_as_float, h]
          rw [if_pos hc]
        · refine Or.inr ⟨n, den, rfl, by omega, by omega, ?_⟩
          simp only [get_frame_rate_as_float, h]
          rw [if_neg hc]
  · intro v dflt
    cases hh : v.height with
    | none => exact Or.inl (by simp only [get_frame_shape, hh])
    | some h =>
        cases hw : v.width with
        | none => exact Or.inl (by simp only [get_frame_shape, hh, hw])
        | some w =>
            cases hr : rotationSwaps (get_frame_rotation v (some (.jint 0))) with
            | none => exact Or.inl (by simp only [get_frame_shape, hh, hw, hr])
            | some b =>
                cases b with
                | true =>
                    exact Or.inr ⟨w, h, rfl, rfl,
                      Or.inr (by simp only [get_frame_shape, hh, hw, hr])⟩
                | false =>
                    exact Or.inr ⟨w, h, rfl, rfl,
                      Or.inl (by simp only [get_frame_shape, hh, hw, hr])⟩
  · intro v dflt
    cases hs : v.side_data_list with
    | none => exact Or.inl (by simp only [get_frame_rotation, hs])
    | some sd =>
        cases sd with
        | jarr items =>
            cases hr : rotationsOf items with
            | none => exact Or.inl (by simp only [get_frame_rotation, hs, hr])
            | some rl =>
                cases rl with
                | nil => exact Or.inl (by simp only [get_frame_rotation, hs, hr])
                | cons r rest =>
                    exact Or.inr ⟨items, r, rest, rfl, hr,
                      by simp only [get_frame_rotation, hs, hr]⟩
        | jnull => exact Or.inl (by simp only [get_frame_rotation, hs])
        | jbool b => exact Or.inl (by simp only [get_frame_rotation, hs])
        | jint n => exact Or.inl (by simp only [get_frame_rotation, hs])
        | jfloat q => exact Or.inl (by simp only [get_frame_rotation, hs])
        | jstr s => exact Or.inl (by simp only [get_frame_rotation, hs])
        | jobj o => exact Or.inl (by simp only [get_frame_rotation, hs])
